import Mathlib

/-!
Verification development for the date-range resolution and session-state
reconciliation logic of `abstractdash.py` (a Streamlit sentiment dashboard).

The embedding models timezone-aware Python datetimes as wall-clock values in
the fixed reporting timezone (US/Eastern): the code obtains `today` via
`datetime.now(pytz.timezone('US/Eastern'))`, after which every operation it
performs (`replace`, `timedelta` addition/subtraction, `datetime.combine`,
field access, comparison) acts on the wall-clock fields while the `tzinfo`
stays the same fixed offset, so wall-clock modelling is faithful.  A datetime
is a calendar date plus the microsecond-of-day.
-/

/-- A Python `datetime.date`: calendar year, month (1..12), day (1..31). -/
structure Date where
  y : Int
  m : Nat
  d : Nat
deriving DecidableEq, Repr

/-- A timezone-aware Python `datetime` in the reporting timezone, modelled by
its wall-clock fields: the calendar date and the microsecond within the day
(hour, minute, second, microsecond combined). -/
structure PyDateTime where
  date : Date
  usec : Nat
deriving DecidableEq, Repr

/-- Microseconds in one day. -/
def usecPerDay : Nat := 86400000000

/-- Gregorian leap-year test, as Python's `calendar`/`datetime` use. -/
def isLeap (y : Int) : Bool := (y % 4 == 0 && y % 100 != 0) || y % 400 == 0

/-- Length of month `m` of year `y` in the proleptic Gregorian calendar. -/
def daysInMonth (y : Int) (m : Nat) : Nat :=
  if m = 2 then (if isLeap y then 29 else 28)
  else if m = 4 ∨ m = 6 ∨ m = 9 ∨ m = 11 then 30 else 31

/-- Validity of the calendar fields (what Python's `date` guarantees). -/
def ValidDate (x : Date) : Prop :=
  1 ≤ x.m ∧ x.m ≤ 12 ∧ 1 ≤ x.d ∧ x.d ≤ daysInMonth x.y x.m

instance (x : Date) : Decidable (ValidDate x) := by
  unfold ValidDate; infer_instance

/-- Validity of a datetime: valid date and a time-of-day within one day. -/
def ValidDT (t : PyDateTime) : Prop := ValidDate t.date ∧ t.usec < usecPerDay

instance (t : PyDateTime) : Decidable (ValidDT t) := by
  unfold ValidDT; infer_instance

/-- The March-based year used by the civil-calendar day count: January and
February count with the preceding year. -/
def marchYear (x : Date) : Int := if x.m ≤ 2 then x.y - 1 else x.y

/-- Day-of-March-year offset at which month `m` starts (Hinnant's formula). -/
def monthDoy (m : Nat) : Nat := (153 * ((m + 9) % 12) + 2) / 5

/-- Day number (relative to the era grid) contributed by a March-based year. -/
def yearBase (yA : Int) : Int :=
  (yA / 400) * 146097 + (yA % 400) * 365 + (yA % 400) / 4 - (yA % 400) / 100

/-- Days since 1970-01-01 of a calendar date (proleptic Gregorian), the count
underlying Python's `date.toordinal` (shifted so 1970-01-01 is day 0). -/
def rataDie (x : Date) : Int :=
  yearBase (marchYear x) + monthDoy x.m + x.d - 1 - 719468

/-- Python's `date.weekday()`: Monday = 0 .. Sunday = 6.
1970-01-01 (day 0) was a Thursday (= 3). -/
def weekday (x : Date) : Nat := ((rataDie x + 3) % 7).toNat

/-- The calendar day after `x` (how Python's date arithmetic rolls over). -/
def nextDay (x : Date) : Date :=
  if x.d < daysInMonth x.y x.m then ⟨x.y, x.m, x.d + 1⟩
  else if x.m < 12 then ⟨x.y, x.m + 1, 1⟩
  else ⟨x.y + 1, 1, 1⟩

/-- The calendar day before `x`. -/
def prevDay (x : Date) : Date :=
  if 1 < x.d then ⟨x.y, x.m, x.d - 1⟩
  else if 1 < x.m then ⟨x.y, x.m - 1, daysInMonth x.y (x.m - 1)⟩
  else ⟨x.y - 1, 12, 31⟩

/-- `n` calendar days after `x`. -/
def addDaysD (x : Date) : Nat → Date
  | 0 => x
  | n + 1 => nextDay (addDaysD x n)

/-- `n` calendar days before `x`. -/
def subDaysD (x : Date) : Nat → Date
  | 0 => x
  | n + 1 => prevDay (subDaysD x n)

/-- `dt + timedelta(days=n)` on an aware datetime with fixed offset:
the wall-clock date shifts by `n` days, the time of day is unchanged. -/
def addDays (t : PyDateTime) (n : Nat) : PyDateTime := ⟨addDaysD t.date n, t.usec⟩

/-- `dt - timedelta(days=n)`. -/
def subDays (t : PyDateTime) (n : Nat) : PyDateTime := ⟨subDaysD t.date n, t.usec⟩

/-- `dt + timedelta(...)` for a nonnegative sub-day component of `u`
microseconds, with rollover into following days. -/
def addUsec (t : PyDateTime) (u : Nat) : PyDateTime :=
  ⟨addDaysD t.date ((t.usec + u) / usecPerDay), (t.usec + u) % usecPerDay⟩

/-- `dt - timedelta(...)` for a sub-day amount of `u ≤ usecPerDay`
microseconds, borrowing from the previous day when needed. -/
def subUsec (t : PyDateTime) (u : Nat) : PyDateTime :=
  if u ≤ t.usec then ⟨t.date, t.usec - u⟩
  else ⟨prevDay t.date, t.usec + usecPerDay - u⟩

/-- The instant of an (assumed valid) datetime as a single microsecond count;
aware datetimes with the same fixed offset compare by this value in Python. -/
def toUsec (t : PyDateTime) : Int := rataDie t.date * (usecPerDay : Int) + t.usec

/-- Python `<=` on two aware datetimes in the same (fixed-offset) timezone. -/
def dtLe (a b : PyDateTime) : Prop := toUsec a ≤ toUsec b

instance (a b : PyDateTime) : Decidable (dtLe a b) :=
  inferInstanceAs (Decidable (toUsec a ≤ toUsec b))

/-- Python `<=` on two `date`s (lexicographic on the fields). -/
def dateLe (a b : Date) : Prop :=
  a.y < b.y ∨ (a.y = b.y ∧ (a.m < b.m ∨ (a.m = b.m ∧ a.d ≤ b.d)))

instance (a b : Date) : Decidable (dateLe a b) := by
  unfold dateLe; infer_instance

/-- Python `<` on two `date`s. -/
def dateLt (a b : Date) : Prop :=
  a.y < b.y ∨ (a.y = b.y ∧ (a.m < b.m ∨ (a.m = b.m ∧ a.d < b.d)))

instance (a b : Date) : Decidable (dateLt a b) := by
  unfold dateLt; infer_instance

/-- Left-pad the decimal digits of `n` to two places. -/
def pad2 (n : Nat) : String := if n < 10 then "0" ++ toString n else toString n

/-- Left-pad the decimal digits of `n` to four places (years of interest are
positive, as in Python where `1 <= year <= 9999`). -/
def pad4 (n : Int) : String :=
  let s := toString n.toNat
  if n.toNat < 10 then "000" ++ s
  else if n.toNat < 100 then "00" ++ s
  else if n.toNat < 1000 then "0" ++ s
  else s

/-- Left-pad the decimal digits of `n` to six places. -/
def pad6 (n : Nat) : String :=
  if n < 10 then "00000" ++ toString n
  else if n < 100 then "0000" ++ toString n
  else if n < 1000 then "000" ++ toString n
  else if n < 10000 then "00" ++ toString n
  else if n < 100000 then "0" ++ toString n
  else toString n

/-- Python `datetime.isoformat()` restricted to the wall-clock part
(the fixed UTC-offset suffix of an aware datetime carries timezone data that
is outside this wall-clock model and is inspected by none of the claims).
Microseconds are printed exactly when nonzero, as in Python. -/
def isoformat (t : PyDateTime) : String :=
  let hh := t.usec / 3600000000
  let mi := t.usec % 3600000000 / 60000000
  let ss := t.usec % 60000000 / 1000000
  let us := t.usec % 1000000
  pad4 t.date.y ++ "-" ++ pad2 t.date.m ++ "-" ++ pad2 t.date.d ++ "T" ++
    pad2 hh ++ ":" ++ pad2 mi ++ ":" ++ pad2 ss ++
    (if us == 0 then "" else "." ++ pad6 us)

/-- The argument accepted by `get_date_range` (`abstractdash.py:33`): one of
the period tag strings `"Week"`, `"Month"`, `"Quarter"`, `"7"`, `"30"`,
`"90"`, `"1095"`, `"custom"`, or a `(start_date, end_date)` tuple of dates. -/
inductive PeriodArg
  | week | month | quarter | d7 | d30 | d90 | d1095
  | custom
  | range (start_date end_date : Date)
deriving DecidableEq, Repr

/-- The quadruple returned by `get_date_range`:
`(start_iso, end_iso, start_of_period, end_of_period)`. -/
structure Resolved where
  start_iso : String
  end_iso : String
  start_dt : PyDateTime
  end_dt : PyDateTime
deriving DecidableEq, Repr

/-- `get_date_range(period)` (`abstractdash.py:33-72`) with the ambient
`today = get_eastern_time_now()` made an explicit argument.  The `"custom"`
tag string falls into the final `else` (it is not a tuple) and raises
`ValueError("Invalid period selected")`, modelled as `Except.error`. -/
def get_date_range (period : PeriodArg) (today : PyDateTime) :
    Except String Resolved :=
  match period with
  | PeriodArg.week =>
      let start_of_period : PyDateTime := ⟨subDaysD today.date (weekday today.date), 0⟩
      let end_of_period := addUsec (addDays start_of_period 6) 86399000000
      Except.ok ⟨isoformat start_of_period, isoformat end_of_period,
        start_of_period, end_of_period⟩
  | PeriodArg.month =>
      let start_of_period : PyDateTime := ⟨⟨today.date.y, today.date.m, 1⟩, 0⟩
      let next_month0 := addDays start_of_period 31
      let next_month : PyDateTime := ⟨⟨next_month0.date.y, next_month0.date.m, 1⟩, 0⟩
      let end_of_period := subUsec next_month 1000000
      Except.ok ⟨isoformat start_of_period, isoformat end_of_period,
        start_of_period, end_of_period⟩
  | PeriodArg.quarter =>
      let quarter := (today.date.m - 1) / 3 + 1
      let start_of_period : PyDateTime := ⟨⟨today.date.y, 3 * quarter - 2, 1⟩, 0⟩
      let end_of_period : PyDateTime :=
        if quarter < 4 then subUsec ⟨⟨today.date.y, 3 * quarter + 1, 1⟩, 0⟩ 1000000
        else ⟨⟨today.date.y, 12, 31⟩, 86399000000⟩
      Except.ok ⟨isoformat start_of_period, isoformat end_of_period,
        start_of_period, end_of_period⟩
  | PeriodArg.d7 =>
      Except.ok ⟨isoformat (subDays today 7), isoformat today, subDays today 7, today⟩
  | PeriodArg.d30 =>
      Except.ok ⟨isoformat (subDays today 30), isoformat today, subDays today 30, today⟩
  | PeriodArg.d90 =>
      Except.ok ⟨isoformat (subDays today 90), isoformat today, subDays today 90, today⟩
  | PeriodArg.d1095 =>
      Except.ok ⟨isoformat (subDays today 1095), isoformat today, subDays today 1095, today⟩
  | PeriodArg.range start_date end_date =>
      let start_of_period : PyDateTime := ⟨start_date, 0⟩
      let end_of_period : PyDateTime := ⟨end_date, 86399999999⟩
      Except.ok ⟨isoformat start_of_period, isoformat end_of_period,
        start_of_period, end_of_period⟩
  | PeriodArg.custom => Except.error "Invalid period selected"

/-- One row of the query result `DataFrame`: columns `Id`,
`Call_Sentiment__c`, `CreatedDate` (`abstractdash.py:90`). -/
structure Row where
  id : String
  call_sentiment : String
  created_date : String
deriving DecidableEq, Repr

/-- Outcome of the external Salesforce call inside
`connect_to_salesforce_and_run_query`: either the `try` body succeeds and
`query_all` yields a (possibly empty) record list, or some exception is
raised (connection/auth/query failure). -/
inductive SourceResult
  | err
  | rows (rs : List Row)
deriving DecidableEq, Repr

/-- The SOQL filter text built at `abstractdash.py:89-94` (whitespace
normalised; the literal quotes of the sentiment `IN` list are omitted from
the model, no claim inspects the text). -/
def soql_query (start_date end_date : String) : String :=
  "SELECT Id, Call_Sentiment__c, CreatedDate FROM Abstrakt_Summary__c WHERE CreatedDate >= "
    ++ start_date ++ " AND CreatedDate <= " ++ end_date
    ++ " AND Call_Sentiment__c IN (Positive, Negative, Neutral, N/A)"

/-- `connect_to_salesforce_and_run_query(start_date, end_date)`
(`abstractdash.py:75-107`) with the external Salesforce outcome as an
explicit argument.  On any exception the `except` branch returns
`(pd.DataFrame(), None)`; on success with no records it returns
`(pd.DataFrame(), soql_query)`; otherwise the rows and the query text. -/
def connect_to_salesforce_and_run_query (start_date end_date : String)
    (source : SourceResult) : List Row × Option String :=
  match source with
  | SourceResult.err => ([], none)
  | SourceResult.rows rs =>
      if rs.isEmpty then ([], some (soql_query start_date end_date))
      else (rs, some (soql_query start_date end_date))

/-- The eight values of the sidebar `Select Period` box
(`abstractdash.py:128-137`), i.e. the possible values of
`st.session_state.selected_period`. -/
inductive Tag
  | week | month | quarter | d7 | d30 | d90 | d1095 | custom
deriving DecidableEq, Repr

/-- The `get_date_range` argument that a tag string is passed as: the
`"custom"` tag itself is (erroneously) passed through unchanged at
`abstractdash.py:193` when it is the previously stored period. -/
def tagToArg : Tag → PeriodArg
  | Tag.week => PeriodArg.week
  | Tag.month => PeriodArg.month
  | Tag.quarter => PeriodArg.quarter
  | Tag.d7 => PeriodArg.d7
  | Tag.d30 => PeriodArg.d30
  | Tag.d90 => PeriodArg.d90
  | Tag.d1095 => PeriodArg.d1095
  | Tag.custom => PeriodArg.custom

/-- The per-session dashboard state held in `st.session_state`
(`abstractdash.py:116-123`). -/
structure SessionState where
  authenticated : Bool
  df : List Row
  query : Option String
  total_count : Nat
  selected_period : Tag
  period_start : Option PyDateTime
  period_end : Option PyDateTime
deriving DecidableEq, Repr

/-- The initial session state (`abstractdash.py:116-123`). -/
def initialState : SessionState :=
  ⟨false, [], none, 0, Tag.week, none, none⟩

/-- Whether a fetch for `selected` can be triggered from state `s`: when the
session is unauthenticated the `Authenticate & Fetch Data` button is offered
for any selector (`abstractdash.py:160-161`); when authenticated the
`Update Query` button is offered exactly when the selector differs from the
stored one or is the `"custom"` tag (`abstractdash.py:185-186`). -/
def shouldRefetch (s : SessionState) (selected : Tag) : Bool :=
  !s.authenticated || selected != s.selected_period || selected == Tag.custom

/-- The custom-range date inputs (`abstractdash.py:150-155`); whenever the
`"custom"` period is selected both date pickers hold a date. -/
structure CustomInput where
  start_date : Date
  end_date : Date
deriving DecidableEq, Repr

/-- The period-resolution step shared by both fetch handlers
(`abstractdash.py:162-170` and `187-195`): for the `"custom"` tag, a valid
date pair is resolved as a range tuple, an invalid one falls back to
resolving `fallbackArg` (after showing a sidebar error); any other tag is
resolved directly. -/
def resolveSelection (selected : Tag) (ci : CustomInput) (fallbackArg : PeriodArg)
    (today : PyDateTime) : Except String Resolved :=
  if selected == Tag.custom then
    if dateLe ci.start_date ci.end_date then
      get_date_range (PeriodArg.range ci.start_date ci.end_date) today
    else get_date_range fallbackArg today
  else get_date_range (tagToArg selected) today

/-- The `Authenticate & Fetch Data` handler (`abstractdash.py:161-182`),
reached only when `s.authenticated` is false.  The invalid-custom fallback
is `get_date_range("90")`.  On a non-empty result every state field is
assigned (the sequential Streamlit assignments of lines 173-179, observed
after the script run); on an empty result no field is assigned.
`Except.error` models an uncaught Python exception aborting the script run
with the state untouched. -/
def authenticateAndFetch (s : SessionState) (selected : Tag) (ci : CustomInput)
    (today : PyDateTime) (source : SourceResult) : Except String SessionState :=
  match resolveSelection selected ci (tagToArg Tag.d90) today with
  | Except.error e => Except.error e
  | Except.ok r =>
    let df := (connect_to_salesforce_and_run_query r.start_iso r.end_iso source).1
    let query := (connect_to_salesforce_and_run_query r.start_iso r.end_iso source).2
    if df.isEmpty then
      Except.ok s
    else
      Except.ok {
        authenticated := true, df := df, query := query,
        total_count := df.length, selected_period := selected,
        period_start := some r.start_dt, period_end := some r.end_dt }

/-- The `Update Query` handler (`abstractdash.py:186-205`), reached only when
`s.authenticated` is true and `shouldRefetch s selected` holds.  The
invalid-custom fallback is `get_date_range(st.session_state.selected_period)`
-- which raises when the stored period is the `"custom"` tag.  On a
non-empty result the data and period fields are reassigned
(`authenticated` is not touched); on an empty result nothing is. -/
def updateQueryStep (s : SessionState) (selected : Tag) (ci : CustomInput)
    (today : PyDateTime) (source : SourceResult) : Except String SessionState :=
  match resolveSelection selected ci (tagToArg s.selected_period) today with
  | Except.error e => Except.error e
  | Except.ok r =>
    let df := (connect_to_salesforce_and_run_query r.start_iso r.end_iso source).1
    let query := (connect_to_salesforce_and_run_query r.start_iso r.end_iso source).2
    if df.isEmpty then
      Except.ok s
    else
      Except.ok { s with
        df := df, query := query,
        total_count := df.length, selected_period := selected,
        period_start := some r.start_dt, period_end := some r.end_dt }

/-- Round half to even (the rounding of Python/NumPy `round`). -/
def roundHalfEven (q : ℚ) : ℤ :=
  if q - ⌊q⌋ < 1/2 then ⌊q⌋
  else if 1/2 < q - ⌊q⌋ then ⌊q⌋ + 1
  else if ⌊q⌋ % 2 = 0 then ⌊q⌋ else ⌊q⌋ + 1

/-- `round(q, 2)`: round to two decimal places. -/
def round2 (q : ℚ) : ℚ := (roundHalfEven (q * 100) : ℚ) / 100

/-- One row of the aggregated table: columns `Call Sentiment`, `Count`,
`Percentage` (`abstractdash.py:228-231`). -/
structure AggRow where
  sentiment : String
  count : Nat
  percentage : ℚ
deriving DecidableEq, Repr

/-- The distinct values of a list in order of first occurrence (the groups
that `value_counts` forms). -/
def firstOccurrences : List String → List String
  | [] => []
  | c :: cs => c :: firstOccurrences (cs.filter (fun x => x ≠ c))
termination_by l => l.length
decreasing_by
  simp only [List.length_cons]
  exact Nat.lt_succ_of_le (List.length_filter_le _ _)

/-- Stable insertion of a `(category, count)` pair into a list sorted by
descending count: the pair goes in front of the first strictly smaller
count, after any equal one (the stable descending sort of `value_counts`). -/
def insertDesc (p : String × Nat) : List (String × Nat) → List (String × Nat)
  | [] => [p]
  | q :: qs => if q.2 < p.2 then p :: q :: qs else q :: insertDesc p qs

/-- Stable sort of `(category, count)` pairs by descending count (insertion
sort, so that it is structurally recursive and evaluates by `decide`). -/
def sortCountDesc : List (String × Nat) → List (String × Nat)
  | [] => []
  | p :: ps => insertDesc p (sortCountDesc ps)

/-- The aggregation at `abstractdash.py:227-231`: `value_counts` groups the
(never-null, by the query's `IN` filter) sentiment column and sorts the
per-category counts descending; `Percentage` is `count / total * 100`
rounded to two decimals, with `total` the sum of the counts. -/
def sentiment_counts (rows : List Row) : List AggRow :=
  let cats := firstOccurrences (rows.map (fun r => r.call_sentiment))
  let counted := cats.map (fun c => (c, rows.countP (fun r => r.call_sentiment == c)))
  let sorted := sortCountDesc counted
  let total_count : Nat := (counted.map (fun p => p.2)).sum
  sorted.map (fun p => ⟨p.1, p.2, round2 ((p.2 : ℚ) / (total_count : ℚ) * 100)⟩)

/-- Spec-side description (for comparison with the `Month` branch): the first
day of the calendar month containing `x`. -/
def specFirstOfMonth (x : Date) : Date := ⟨x.y, x.m, 1⟩

/-- Spec-side description (for comparison with the `Month` branch): the first
day of the calendar month after the one containing `x`. -/
def specFirstOfNextMonth (x : Date) : Date :=
  if x.m < 12 then ⟨x.y, x.m + 1, 1⟩ else ⟨x.y + 1, 1, 1⟩

theorem ValidDate_mk (y : Int) (m d : Nat) :
    ValidDate ⟨y, m, d⟩ ↔ 1 ≤ m ∧ m ≤ 12 ∧ 1 ≤ d ∧ d ≤ daysInMonth y m := Iff.rfl

theorem rataDie_mk (y : Int) (m d : Nat) :
    rataDie ⟨y, m, d⟩ =
      yearBase (if m ≤ 2 then y - 1 else y) +
        (((153 * ((m + 9) % 12) + 2) / 5 : Nat) : Int) + (d : Int) - 1 - 719468 := rfl

theorem daysInMonth_pos (y : Int) (m : Nat) : 1 ≤ daysInMonth y m := by
  unfold daysInMonth
  split
  · split <;> norm_num
  · split <;> norm_num

theorem daysInMonth_le_31 (y : Int) (m : Nat) : daysInMonth y m ≤ 31 := by
  unfold daysInMonth
  split
  · split <;> norm_num
  · split <;> norm_num

theorem daysInMonth_ge_28 (y : Int) (m : Nat) : 28 ≤ daysInMonth y m := by
  unfold daysInMonth
  split
  · split <;> norm_num
  · split <;> norm_num

theorem daysInMonth_2 (y : Int) : daysInMonth y 2 = if isLeap y then 29 else 28 := rfl

theorem daysInMonth_12 (y : Int) : daysInMonth y 12 = 31 := rfl

theorem isLeap_iff (y : Int) :
    isLeap y = true ↔ (y % 4 = 0 ∧ ¬ y % 100 = 0) ∨ y % 400 = 0 := by
  simp [isLeap, Bool.or_eq_true, Bool.and_eq_true, beq_iff_eq, bne_iff_ne]

theorem validDate_nextDay (x : Date) (h : ValidDate x) : ValidDate (nextDay x) := by
  obtain ⟨y, m, d⟩ := x
  rw [ValidDate_mk] at h
  obtain ⟨hm1, hm2, hd1, hd2⟩ := h
  simp only [nextDay]
  split
  case isTrue hlt => exact (ValidDate_mk _ _ _).2 ⟨hm1, hm2, by omega, by omega⟩
  case isFalse hlt =>
    split
    case isTrue hm12 =>
      exact (ValidDate_mk _ _ _).2 ⟨by omega, by omega, le_refl 1, daysInMonth_pos y (m + 1)⟩
    case isFalse hm12 =>
      exact (ValidDate_mk _ _ _).2 ⟨by norm_num, by norm_num, le_refl 1, daysInMonth_pos (y + 1) 1⟩

theorem validDate_prevDay (x : Date) (h : ValidDate x) : ValidDate (prevDay x) := by
  obtain ⟨y, m, d⟩ := x
  rw [ValidDate_mk] at h
  obtain ⟨hm1, hm2, hd1, hd2⟩ := h
  simp only [prevDay]
  split
  case isTrue hlt => exact (ValidDate_mk _ _ _).2 ⟨hm1, hm2, by omega, by omega⟩
  case isFalse hlt =>
    split
    case isTrue hm2' =>
      exact (ValidDate_mk _ _ _).2
        ⟨by omega, by omega, daysInMonth_pos y (m - 1), le_refl _⟩
    case isFalse hm2' =>
      exact (ValidDate_mk _ _ _).2 ⟨by norm_num, by norm_num, by norm_num, by rw [daysInMonth_12]⟩

theorem rataDie_nextDay (x : Date) (h : ValidDate x) :
    rataDie (nextDay x) = rataDie x + 1 := by
  obtain ⟨y, m, d⟩ := x
  rw [ValidDate_mk] at h
  obtain ⟨hm1, hm2, hd1, hd2⟩ := h
  simp only [nextDay]
  split
  case isTrue hlt =>
    simp only [rataDie_mk]
    omega
  case isFalse hlt =>
    have hd : d = daysInMonth y m := by omega
    split
    case isTrue hm12 =>
      rw [hd]
      interval_cases m
      · show yearBase (y - 1) + ((monthDoy 2 : Nat) : Int) + ((1 : Nat) : Int) - 1 - 719468 =
          yearBase (y - 1) + ((monthDoy 1 : Nat) : Int) + ((daysInMonth y 1 : Nat) : Int) -
            1 - 719468 + 1
        rw [show monthDoy 2 = 337 from rfl, show monthDoy 1 = 306 from rfl,
          show daysInMonth y 1 = 31 from rfl]
        omega
      · show yearBase y + ((monthDoy 3 : Nat) : Int) + ((1 : Nat) : Int) - 1 - 719468 =
          yearBase (y - 1) + ((monthDoy 2 : Nat) : Int) + ((daysInMonth y 2 : Nat) : Int) -
            1 - 719468 + 1
        rw [show monthDoy 3 = 0 from rfl, show monthDoy 2 = 337 from rfl, daysInMonth_2]
        cases hL : isLeap y with
        | false =>
          have hLP : ¬ ((y % 4 = 0 ∧ ¬ y % 100 = 0) ∨ y % 400 = 0) := by
            intro hc
            have h2 := (isLeap_iff y).2 hc
            rw [hL] at h2
            exact Bool.false_ne_true h2
          rw [if_neg (by simp)]
          unfold yearBase
          omega
        | true =>
          have hLP : (y % 4 = 0 ∧ ¬ y % 100 = 0) ∨ y % 400 = 0 := (isLeap_iff y).1 hL
          rw [if_pos rfl]
          unfold yearBase
          omega
      · show yearBase y + ((monthDoy 4 : Nat) : Int) + ((1 : Nat) : Int) - 1 - 719468 =
          yearBase y + ((monthDoy 3 : Nat) : Int) + ((daysInMonth y 3 : Nat) : Int) -
            1 - 719468 + 1
        rw [show monthDoy 4 = 31 from rfl, show monthDoy 3 = 0 from rfl,
          show daysInMonth y 3 = 31 from rfl]
        omega
      · show yearBase y + ((monthDoy 5 : Nat) : Int) + ((1 : Nat) : Int) - 1 - 719468 =
          yearBase y + ((monthDoy 4 : Nat) : Int) + ((daysInMonth y 4 : Nat) : Int) -
            1 - 719468 + 1
        rw [show monthDoy 5 = 61 from rfl, show monthDoy 4 = 31 from rfl,
          show daysInMonth y 4 = 30 from rfl]
        omega
      · show yearBase y + ((monthDoy 6 : Nat) : Int) + ((1 : Nat) : Int) - 1 - 719468 =
          yearBase y + ((monthDoy 5 : Nat) : Int) + ((daysInMonth y 5 : Nat) : Int) -
            1 - 719468 + 1
        rw [show monthDoy 6 = 92 from rfl, show monthDoy 5 = 61 from rfl,
          show daysInMonth y 5 = 31 from rfl]
        omega
      · show yearBase y + ((monthDoy 7 : Nat) : Int) + ((1 : Nat) : Int) - 1 - 719468 =
          yearBase y + ((monthDoy 6 : Nat) : Int) + ((daysInMonth y 6 : Nat) : Int) -
            1 - 719468 + 1
        rw [show monthDoy 7 = 122 from rfl, show monthDoy 6 = 92 from rfl,
          show daysInMonth y 6 = 30 from rfl]
        omega
      · show yearBase y + ((monthDoy 8 : Nat) : Int) + ((1 : Nat) : Int) - 1 - 719468 =
          yearBase y + ((monthDoy 7 : Nat) : Int) + ((daysInMonth y 7 : Nat) : Int) -
            1 - 719468 + 1
        rw [show monthDoy 8 = 153 from rfl, show monthDoy 7 = 122 from rfl,
          show daysInMonth y 7 = 31 from rfl]
        omega
      · show yearBase y + ((monthDoy 9 : Nat) : Int) + ((1 : Nat) : Int) - 1 - 719468 =
          yearBase y + ((monthDoy 8 : Nat) : Int) + ((daysInMonth y 8 : Nat) : Int) -
            1 - 719468 + 1
        rw [show monthDoy 9 = 184 from rfl, show monthDoy 8 = 153 from rfl,
          show daysInMonth y 8 = 31 from rfl]
        omega
      · show yearBase y + ((monthDoy 10 : Nat) : Int) + ((1 : Nat) : Int) - 1 - 719468 =
          yearBase y + ((monthDoy 9 : Nat) : Int) + ((daysInMonth y 9 : Nat) : Int) -
            1 - 719468 + 1
        rw [show monthDoy 10 = 214 from rfl, show monthDoy 9 = 184 from rfl,
          show daysInMonth y 9 = 30 from rfl]
        omega
      · show yearBase y + ((monthDoy 11 : Nat) : Int) + ((1 : Nat) : Int) - 1 - 719468 =
          yearBase y + ((monthDoy 10 : Nat) : Int) + ((daysInMonth y 10 : Nat) : Int) -
            1 - 719468 + 1
        rw [show monthDoy 11 = 245 from rfl, show monthDoy 10 = 214 from rfl,
          show daysInMonth y 10 = 31 from rfl]
        omega
      · show yearBase y + ((monthDoy 12 : Nat) : Int) + ((1 : Nat) : Int) - 1 - 719468 =
          yearBase y + ((monthDoy 11 : Nat) : Int) + ((daysInMonth y 11 : Nat) : Int) -
            1 - 719468 + 1
        rw [show monthDoy 12 = 275 from rfl, show monthDoy 11 = 245 from rfl,
          show daysInMonth y 11 = 30 from rfl]
        omega
    case isFalse hm12 =>
      have hm : m = 12 := by omega
      subst hm
      rw [hd]
      show yearBase (y + 1 - 1) + ((monthDoy 1 : Nat) : Int) + ((1 : Nat) : Int) - 1 - 719468 =
        yearBase y + ((monthDoy 12 : Nat) : Int) + ((daysInMonth y 12 : Nat) : Int) -
          1 - 719468 + 1
      rw [show monthDoy 1 = 306 from rfl, show monthDoy 12 = 275 from rfl,
        show daysInMonth y 12 = 31 from rfl, show y + 1 - 1 = y from by omega]
      omega

theorem nextDay_prevDay (x : Date) (h : ValidDate x) : nextDay (prevDay x) = x := by
  obtain ⟨y, m, d⟩ := x
  rw [ValidDate_mk] at h
  obtain ⟨hm1, hm2, hd1, hd2⟩ := h
  simp only [prevDay]
  split
  case isTrue hlt =>
    simp only [nextDay]
    rw [if_pos (by omega : d - 1 < daysInMonth y m), Nat.sub_add_cancel hd1]
  case isFalse hlt =>
    split
    case isTrue hm2' =>
      have hd' : d = 1 := by omega
      subst hd'
      simp only [nextDay]
      rw [if_neg (by omega : ¬ daysInMonth y (m - 1) < daysInMonth y (m - 1)),
        if_pos (by omega : m - 1 < 12), Nat.sub_add_cancel hm1]
    case isFalse hm2' =>
      have hm' : m = 1 := by omega
      have hd' : d = 1 := by omega
      subst hm'
      subst hd'
      show (⟨y - 1 + 1, 1, 1⟩ : Date) = ⟨y, 1, 1⟩
      rw [sub_add_cancel]

theorem rataDie_prevDay (x : Date) (h : ValidDate x) :
    rataDie (prevDay x) = rataDie x - 1 := by
  have h1 := rataDie_nextDay (prevDay x) (validDate_prevDay x h)
  rw [nextDay_prevDay x h] at h1
  omega

theorem validDate_addDaysD (x : Date) (h : ValidDate x) (n : Nat) :
    ValidDate (addDaysD x n) := by
  induction n with
  | zero => exact h
  | succ k ih => exact validDate_nextDay _ ih

theorem rataDie_addDaysD (x : Date) (h : ValidDate x) (n : Nat) :
    rataDie (addDaysD x n) = rataDie x + n := by
  induction n with
  | zero => simp [addDaysD]
  | succ k ih =>
    have := rataDie_nextDay (addDaysD x k) (validDate_addDaysD x h k)
    simp only [addDaysD]
    omega

theorem validDate_subDaysD (x : Date) (h : ValidDate x) (n : Nat) :
    ValidDate (subDaysD x n) := by
  induction n with
  | zero => exact h
  | succ k ih => exact validDate_prevDay _ ih

theorem rataDie_subDaysD (x : Date) (h : ValidDate x) (n : Nat) :
    rataDie (subDaysD x n) = rataDie x - n := by
  induction n with
  | zero => simp [subDaysD]
  | succ k ih =>
    have := rataDie_prevDay (subDaysD x k) (validDate_subDaysD x h k)
    simp only [subDaysD]
    omega

theorem weekday_lt_7 (x : Date) : weekday x < 7 := by
  unfold weekday
  have h1 : 0 ≤ (rataDie x + 3) % 7 := Int.emod_nonneg _ (by norm_num)
  have h2 : (rataDie x + 3) % 7 < 7 := Int.emod_lt_of_pos _ (by norm_num)
  omega

theorem yearBase_mono (a b : Int) (h : a ≤ b) :
    yearBase a + 365 * (b - a) ≤ yearBase b := by
  unfold yearBase
  omega

theorem rataDie_low (y : Int) (m d : Nat) (h : m ≤ 2) :
    rataDie ⟨y, m, d⟩ =
      yearBase (y - 1) + (((153 * ((m + 9) % 12) + 2) / 5 : Nat) : Int) +
        (d : Int) - 1 - 719468 := by
  rw [rataDie_mk, if_pos h]

theorem rataDie_high (y : Int) (m d : Nat) (h : ¬ m ≤ 2) :
    rataDie ⟨y, m, d⟩ =
      yearBase y + (((153 * ((m + 9) % 12) + 2) / 5 : Nat) : Int) +
        (d : Int) - 1 - 719468 := by
  rw [rataDie_mk, if_neg h]

theorem doy_mono_hi (m1 m2 d1 d2 : Nat) (h31 : 3 ≤ m1) (h121 : m1 ≤ 12)
    (h32 : 3 ≤ m2) (h122 : m2 ≤ 12)
    (hm : m1 < m2 ∨ (m1 = m2 ∧ d1 ≤ d2)) (hd2 : 1 ≤ d2)
    (b4 : m1 = 4 → d1 ≤ 30) (b6 : m1 = 6 → d1 ≤ 30)
    (b9 : m1 = 9 → d1 ≤ 30) (b11 : m1 = 11 → d1 ≤ 30) (b31 : d1 ≤ 31) :
    (153 * ((m1 + 9) % 12) + 2) / 5 + d1 ≤ (153 * ((m2 + 9) % 12) + 2) / 5 + d2 := by
  interval_cases m1 <;> interval_cases m2 <;> omega

theorem doy_mono_lo (m1 m2 d1 d2 : Nat) (h11 : 1 ≤ m1) (h21 : m1 ≤ 2)
    (h12 : 1 ≤ m2) (h22 : m2 ≤ 2)
    (hm : m1 < m2 ∨ (m1 = m2 ∧ d1 ≤ d2)) (hd2 : 1 ≤ d2) (b31 : d1 ≤ 31) :
    (153 * ((m1 + 9) % 12) + 2) / 5 + d1 ≤ (153 * ((m2 + 9) % 12) + 2) / 5 + d2 := by
  interval_cases m1 <;> interval_cases m2 <;> omega

theorem doy_le_366_lo (m d : Nat) (h1 : 1 ≤ m) (h2 : m ≤ 2) (hd : 1 ≤ d)
    (b29 : m = 2 → d ≤ 29) (b31 : d ≤ 31) :
    (153 * ((m + 9) % 12) + 2) / 5 + d ≤ 366 := by
  interval_cases m <;> omega

theorem doy_ge_307_lo (m d : Nat) (h1 : 1 ≤ m) (h2 : m ≤ 2) (hd : 1 ≤ d) :
    307 ≤ (153 * ((m + 9) % 12) + 2) / 5 + d := by
  interval_cases m <;> omega

theorem doy_le_306_hi (m d : Nat) (h3 : 3 ≤ m) (h12 : m ≤ 12)
    (b4 : m = 4 → d ≤ 30) (b6 : m = 6 → d ≤ 30) (b9 : m = 9 → d ≤ 30)
    (b11 : m = 11 → d ≤ 30) (b31 : d ≤ 31) :
    (153 * ((m + 9) % 12) + 2) / 5 + d ≤ 306 := by
  interval_cases m <;> omega

theorem rataDie_mono (a b : Date) (ha : ValidDate a) (hb : ValidDate b)
    (hab : dateLe a b) : rataDie a ≤ rataDie b := by
  obtain ⟨y1, m1, d1⟩ := a
  obtain ⟨y2, m2, d2⟩ := b
  rw [ValidDate_mk] at ha hb
  obtain ⟨hm1a, hm2a, hd1a, hd2a⟩ := ha
  obtain ⟨hm1b, hm2b, hd1b, hd2b⟩ := hb
  simp only [dateLe] at hab
  have hA2 : m1 = 2 → d1 ≤ 29 := by
    intro h
    subst h
    rw [daysInMonth_2] at hd2a
    split at hd2a <;> omega
  have hA4 : m1 = 4 → d1 ≤ 30 := by
    intro h; subst h
    rw [show daysInMonth y1 4 = 30 from rfl] at hd2a
    omega
  have hA6 : m1 = 6 → d1 ≤ 30 := by
    intro h; subst h
    rw [show daysInMonth y1 6 = 30 from rfl] at hd2a
    omega
  have hA9 : m1 = 9 → d1 ≤ 30 := by
    intro h; subst h
    rw [show daysInMonth y1 9 = 30 from rfl] at hd2a
    omega
  have hA11 : m1 = 11 → d1 ≤ 30 := by
    intro h; subst h
    rw [show daysInMonth y1 11 = 30 from rfl] at hd2a
    omega
  have hA31 : d1 ≤ 31 := le_trans hd2a (daysInMonth_le_31 _ _)
  have hB31 : d2 ≤ 31 := le_trans hd2b (daysInMonth_le_31 _ _)
  rcases le_or_lt m1 2 with hg1 | hg1 <;> rcases le_or_lt m2 2 with hg2 | hg2
  · -- lo, lo
    rw [rataDie_low _ _ _ hg1, rataDie_low _ _ _ hg2]
    rcases hab with hy | ⟨hy, hm⟩
    · have hY := yearBase_mono (y1 - 1) (y2 - 1) (by omega)
      have h1 := doy_le_366_lo m1 d1 hm1a hg1 hd1a hA2 hA31
      have h2 := doy_ge_307_lo m2 d2 hm1b hg2 hd1b
      omega
    · subst hy
      have := doy_mono_lo m1 m2 d1 d2 hm1a hg1 hm1b hg2 hm hd1b hA31
      omega
  · -- lo, hi
    rw [rataDie_low _ _ _ hg1, rataDie_high _ _ _ (by omega)]
    have hy : y1 ≤ y2 := by rcases hab with hy | ⟨hy, _⟩ <;> omega
    have hY := yearBase_mono (y1 - 1) y2 (by omega)
    have h1 := doy_le_366_lo m1 d1 hm1a hg1 hd1a hA2 hA31
    omega
  · -- hi, lo
    rw [rataDie_high _ _ _ (by omega), rataDie_low _ _ _ hg2]
    have hy : y1 < y2 := by
      rcases hab with hy | ⟨hy, hm⟩
      · exact hy
      · omega
    have hY := yearBase_mono y1 (y2 - 1) (by omega)
    have h1 := doy_le_306_hi m1 d1 (by omega) hm2a hA4 hA6 hA9 hA11 hA31
    have h2 := doy_ge_307_lo m2 d2 hm1b hg2 hd1b
    omega
  · -- hi, hi
    rw [rataDie_high _ _ _ (by omega), rataDie_high _ _ _ (by omega)]
    rcases hab with hy | ⟨hy, hm⟩
    · have hY := yearBase_mono y1 y2 (by omega)
      have h1 := doy_le_306_hi m1 d1 (by omega) hm2a hA4 hA6 hA9 hA11 hA31
      omega
    · subst hy
      have := doy_mono_hi m1 m2 d1 d2 (by omega) hm2a (by omega) hm2b hm hd1b hA4 hA6 hA9 hA11 hA31
      omega

theorem addDaysD_add (x : Date) (a b : Nat) :
    addDaysD x (a + b) = addDaysD (addDaysD x a) b := by
  induction b with
  | zero => rfl
  | succ k ih =>
    rw [Nat.add_succ]
    show nextDay (addDaysD x (a + k)) = nextDay (addDaysD (addDaysD x a) k)
    rw [ih]

theorem addDaysD_in_month (y : Int) (m d : Nat) (hm1 : 1 ≤ m) (hm2 : m ≤ 12)
    (hd1 : 1 ≤ d) (k : Nat) :
    d + k ≤ daysInMonth y m → addDaysD ⟨y, m, d⟩ k = ⟨y, m, d + k⟩ := by
  induction k with
  | zero => intro _; rfl
  | succ n ih =>
    intro hk
    simp only [addDaysD]
    rw [ih (by omega)]
    simp only [nextDay]
    rw [if_pos (by omega : d + n < daysInMonth y m)]
    exact congrArg (Date.mk y m) (by omega)

theorem addDaysD_31 (y : Int) (m : Nat) (hm1 : 1 ≤ m) (hm2 : m ≤ 12) :
    addDaysD ⟨y, m, 1⟩ 31 =
      if m < 12 then (⟨y, m + 1, 32 - daysInMonth y m⟩ : Date)
      else ⟨y + 1, 1, 32 - daysInMonth y m⟩ := by
  have hdim28 := daysInMonth_ge_28 y m
  have hdim31 := daysInMonth_le_31 y m
  have h31 : 31 = (daysInMonth y m - 1) + 1 + (31 - daysInMonth y m) := by omega
  rw [h31, addDaysD_add, addDaysD_add]
  rw [addDaysD_in_month y m 1 hm1 hm2 (le_refl 1) (daysInMonth y m - 1) (by omega)]
  rw [show 1 + (daysInMonth y m - 1) = daysInMonth y m from by omega]
  rcases lt_or_ge m 12 with hm12 | hm12
  · rw [if_pos hm12]
    have h1 : addDaysD ⟨y, m, daysInMonth y m⟩ 1 = nextDay ⟨y, m, daysInMonth y m⟩ := rfl
    rw [h1]
    simp only [nextDay]
    rw [if_neg (by omega : ¬ daysInMonth y m < daysInMonth y m), if_pos hm12]
    rw [addDaysD_in_month y (m + 1) 1 (by omega) (by omega) (le_refl 1)
      (31 - daysInMonth y m) (by have := daysInMonth_ge_28 y (m + 1); omega)]
    rw [show 1 + (31 - daysInMonth y m) = 32 - daysInMonth y m from by omega]
  · rw [if_neg (by omega)]
    have hm' : m = 12 := by omega
    subst hm'
    rw [daysInMonth_12]
    have h1 : addDaysD ⟨y, 12, 31⟩ 1 = nextDay ⟨y, 12, 31⟩ := rfl
    rw [h1]
    simp only [nextDay]
    rw [if_neg (by rw [daysInMonth_12]; omega), if_neg (by omega)]
    rw [addDaysD_in_month (y + 1) 1 1 (by omega) (by omega) (le_refl 1)
      (31 - 31) (by rw [show daysInMonth (y + 1) 1 = 31 from rfl]; omega)]

/-- Extract the payload of a successful resolution (dummy value on error). -/
def okResolved (x : Except String Resolved) : Resolved :=
  match x with
  | Except.ok r => r
  | Except.error _ => ⟨"", "", ⟨⟨0, 1, 1⟩, 0⟩, ⟨⟨0, 1, 1⟩, 0⟩⟩

/-- Whether a resolution succeeded (returned a value rather than raising). -/
def exceptIsOk (x : Except String Resolved) : Bool :=
  match x with
  | Except.ok _ => true
  | Except.error _ => false

theorem addUsec_week_end (D : Date) :
    addUsec (addDays ⟨D, 0⟩ 6) 86399000000 = ⟨addDaysD D 6, 86399000000⟩ := by
  simp only [addUsec, addDays]
  rw [show (0 + 86399000000) / usecPerDay = 0 from by norm_num [usecPerDay]]
  rw [show (0 + 86399000000) % usecPerDay = 86399000000 from by norm_num [usecPerDay]]
  rw [show ∀ z : Date, addDaysD z 0 = z from fun _ => rfl]

theorem subUsec_midnight (D : Date) :
    subUsec ⟨D, 0⟩ 1000000 = ⟨prevDay D, 86399000000⟩ := by
  simp only [subUsec]
  rw [if_neg (by norm_num)]
  rw [show 0 + usecPerDay - 1000000 = 86399000000 from by norm_num [usecPerDay]]

theorem month_next_first (y : Int) (m : Nat) (hm1 : 1 ≤ m) (hm2 : m ≤ 12) :
    (⟨(addDaysD ⟨y, m, 1⟩ 31).y, (addDaysD ⟨y, m, 1⟩ 31).m, 1⟩ : Date) =
      if m < 12 then ⟨y, m + 1, 1⟩ else ⟨y + 1, 1, 1⟩ := by
  rw [addDaysD_31 y m hm1 hm2]
  rcases lt_or_ge m 12 with h | h
  · rw [if_pos h, if_pos h]
  · rw [if_neg (by omega : ¬ m < 12), if_neg (by omega : ¬ m < 12)]

theorem month_end_from_first (y : Int) (m : Nat) (hm1 : 1 ≤ m) (hm2 : m ≤ 12) :
    subUsec ⟨(if m < 12 then (⟨y, m + 1, 1⟩ : Date) else ⟨y + 1, 1, 1⟩), 0⟩ 1000000 =
      ⟨⟨y, m, daysInMonth y m⟩, 86399000000⟩ := by
  rcases lt_or_ge m 12 with h | h
  · rw [if_pos h, subUsec_midnight]
    simp only [prevDay]
    rw [if_neg (by norm_num), if_pos (by omega), Nat.add_sub_cancel]
  · have hm' : m = 12 := by omega
    subst hm'
    rw [if_neg (by omega), subUsec_midnight]
    simp only [prevDay]
    rw [if_neg (by norm_num), if_neg (by norm_num)]
    rw [daysInMonth_12, add_sub_cancel_right]

/-- C3: for every valid reference instant, the `Week` branch of
`get_date_range` (which always succeeds) returns a start instant that falls
on a Monday (weekday 0) at wall-clock 00:00:00 in the reporting timezone,
within the week containing the reference instant (at most 6 days before it,
never after), and an end instant exactly 6 calendar days after the start at
23:59:59 -- the following Sunday. -/
theorem week_resolves_to_monday_sunday (t : PyDateTime) (hv : ValidDT t) :
    weekday (okResolved (get_date_range PeriodArg.week t)).start_dt.date = 0 ∧
    (okResolved (get_date_range PeriodArg.week t)).start_dt.usec = 0 ∧
    rataDie (okResolved (get_date_range PeriodArg.week t)).start_dt.date ≤
      rataDie t.date ∧
    rataDie t.date <
      rataDie (okResolved (get_date_range PeriodArg.week t)).start_dt.date + 7 ∧
    rataDie (okResolved (get_date_range PeriodArg.week t)).end_dt.date =
      rataDie (okResolved (get_date_range PeriodArg.week t)).start_dt.date + 6 ∧
    weekday (okResolved (get_date_range PeriodArg.week t)).end_dt.date = 6 ∧
    (okResolved (get_date_range PeriodArg.week t)).end_dt.usec = 86399000000 := by
  obtain ⟨hvd, hvu⟩ := hv
  dsimp only [get_date_range, okResolved]
  rw [addUsec_week_end]
  dsimp only
  have hw7 := weekday_lt_7 t.date
  have hrd := rataDie_subDaysD t.date hvd (weekday t.date)
  have hW : ((weekday t.date : Nat) : Int) = (rataDie t.date + 3) % 7 := by
    unfold weekday
    rw [Int.toNat_of_nonneg (Int.emod_nonneg _ (by norm_num))]
  have hradd := rataDie_addDaysD (subDaysD t.date (weekday t.date))
    (validDate_subDaysD t.date hvd (weekday t.date)) 6
  refine ⟨?_, rfl, ?_, ?_, ?_, ?_, rfl⟩
  · show ((rataDie (subDaysD t.date (weekday t.date)) + 3) % 7).toNat = 0
    rw [hrd]
    omega
  · omega
  · omega
  · omega
  · show ((rataDie (addDaysD (subDaysD t.date (weekday t.date)) 6) + 3) % 7).toNat = 6
    rw [hradd, hrd]
    omega

/-- Witness for C3 at the reference instant 2024-05-15 01:00:00 (a
Wednesday): the resolved week runs Monday 2024-05-13 00:00:00 through
Sunday 2024-05-19 23:59:59. -/
theorem week_resolves_to_monday_sunday_witness :
    weekday (okResolved (get_date_range PeriodArg.week
      ⟨⟨2024, 5, 15⟩, 3600000000⟩)).start_dt.date = 0 ∧
    (okResolved (get_date_range PeriodArg.week
      ⟨⟨2024, 5, 15⟩, 3600000000⟩)).start_dt.usec = 0 ∧
    rataDie (okResolved (get_date_range PeriodArg.week
      ⟨⟨2024, 5, 15⟩, 3600000000⟩)).start_dt.date ≤ rataDie ⟨2024, 5, 15⟩ ∧
    rataDie ⟨2024, 5, 15⟩ < rataDie (okResolved (get_date_range PeriodArg.week
      ⟨⟨2024, 5, 15⟩, 3600000000⟩)).start_dt.date + 7 ∧
    rataDie (okResolved (get_date_range PeriodArg.week
      ⟨⟨2024, 5, 15⟩, 3600000000⟩)).end_dt.date =
      rataDie (okResolved (get_date_range PeriodArg.week
        ⟨⟨2024, 5, 15⟩, 3600000000⟩)).start_dt.date + 6 ∧
    weekday (okResolved (get_date_range PeriodArg.week
      ⟨⟨2024, 5, 15⟩, 3600000000⟩)).end_dt.date = 6 ∧
    (okResolved (get_date_range PeriodArg.week
      ⟨⟨2024, 5, 15⟩, 3600000000⟩)).end_dt.usec = 86399000000 :=
  week_resolves_to_monday_sunday ⟨⟨2024, 5, 15⟩, 3600000000⟩ (by decide)

/-- C4: for every valid reference instant, the `Month` branch of
`get_date_range` (which always succeeds) returns a start instant that is the
first day of the reference instant's wall-clock month at 00:00:00, and an
end instant equal to the first day of the next month at 00:00:00 minus one
second -- that is, the last day of the reference's month at 23:59:59. -/
theorem month_resolves_to_calendar_month (t : PyDateTime) (hv : ValidDT t) :
    (okResolved (get_date_range PeriodArg.month t)).start_dt =
      ⟨specFirstOfMonth t.date, 0⟩ ∧
    (okResolved (get_date_range PeriodArg.month t)).end_dt =
      subUsec ⟨specFirstOfNextMonth t.date, 0⟩ 1000000 ∧
    (okResolved (get_date_range PeriodArg.month t)).end_dt =
      ⟨⟨t.date.y, t.date.m, daysInMonth t.date.y t.date.m⟩, 86399000000⟩ := by
  obtain ⟨⟨hm1, hm2, hd1, hd2⟩, hvu⟩ := hv
  dsimp only [get_date_range, okResolved, addDays]
  have hnext := month_next_first t.date.y t.date.m hm1 hm2
  refine ⟨rfl, ?_, ?_⟩
  · rw [hnext]
    simp only [specFirstOfNextMonth]
  · rw [hnext, month_end_from_first t.date.y t.date.m hm1 hm2]

/-- Witness for C4 at the reference instant 2024-02-29 00:00:00.000123: the
resolved month runs 2024-02-01 00:00:00 through 2024-02-29 23:59:59. -/
theorem month_resolves_to_calendar_month_witness :
    (okResolved (get_date_range PeriodArg.month ⟨⟨2024, 2, 29⟩, 123⟩)).start_dt =
      ⟨specFirstOfMonth ⟨2024, 2, 29⟩, 0⟩ ∧
    (okResolved (get_date_range PeriodArg.month ⟨⟨2024, 2, 29⟩, 123⟩)).end_dt =
      subUsec ⟨specFirstOfNextMonth ⟨2024, 2, 29⟩, 0⟩ 1000000 ∧
    (okResolved (get_date_range PeriodArg.month ⟨⟨2024, 2, 29⟩, 123⟩)).end_dt =
      ⟨⟨2024, 2, 29⟩, 86399000000⟩ :=
  month_resolves_to_calendar_month ⟨⟨2024, 2, 29⟩, 123⟩ (by decide)

/-- C2 (amended): for every resolver argument and valid reference instant
for which `get_date_range` returns a value, the resolved period satisfies
`start_of_period <= end_of_period` -- except for a `Custom` tuple whose
start date is after its end date (Python `date` objects are always valid;
handlers only pass tuples with `start <= end`). -/
theorem resolver_start_le_end (p : PeriodArg) (t : PyDateTime)
    (hv : ValidDT t)
    (hp : ∀ d1 d2, p = PeriodArg.range d1 d2 →
      ValidDate d1 ∧ ValidDate d2 ∧ dateLe d1 d2)
    (hok : exceptIsOk (get_date_range p t) = true) :
    dtLe (okResolved (get_date_range p t)).start_dt
      (okResolved (get_date_range p t)).end_dt := by
  obtain ⟨hvd, hvu⟩ := hv
  cases p with
  | week =>
    dsimp only [get_date_range, okResolved]
    rw [addUsec_week_end]
    have hrd := rataDie_addDaysD (subDaysD t.date (weekday t.date))
      (validDate_subDaysD t.date hvd (weekday t.date)) 6
    show dtLe ⟨subDaysD t.date (weekday t.date), 0⟩
      ⟨addDaysD (subDaysD t.date (weekday t.date)) 6, 86399000000⟩
    unfold dtLe toUsec usecPerDay
    dsimp only
    rw [hrd]
    omega
  | month =>
    dsimp only [get_date_range, okResolved, addDays]
    rw [month_next_first t.date.y t.date.m hvd.1 hvd.2.1,
      month_end_from_first t.date.y t.date.m hvd.1 hvd.2.1]
    show dtLe ⟨⟨t.date.y, t.date.m, 1⟩, 0⟩
      ⟨⟨t.date.y, t.date.m, daysInMonth t.date.y t.date.m⟩, 86399000000⟩
    unfold dtLe toUsec usecPerDay
    dsimp only
    simp only [rataDie_mk]
    have := daysInMonth_pos t.date.y t.date.m
    omega
  | quarter =>
    obtain ⟨hm1, hm2, _, _⟩ := hvd
    dsimp only [get_date_range, okResolved]
    rcases lt_or_ge ((t.date.m - 1) / 3 + 1) 4 with hq | hq
    · rw [if_pos hq, subUsec_midnight]
      show dtLe ⟨⟨t.date.y, 3 * ((t.date.m - 1) / 3 + 1) - 2, 1⟩, 0⟩
        ⟨prevDay ⟨t.date.y, 3 * ((t.date.m - 1) / 3 + 1) + 1, 1⟩, 86399000000⟩
      simp only [prevDay]
      rw [if_neg (by norm_num), if_pos (by omega), Nat.add_sub_cancel]
      have hmono := rataDie_mono ⟨t.date.y, 3 * ((t.date.m - 1) / 3 + 1) - 2, 1⟩
        ⟨t.date.y, 3 * ((t.date.m - 1) / 3 + 1),
          daysInMonth t.date.y (3 * ((t.date.m - 1) / 3 + 1))⟩
        ((ValidDate_mk _ _ _).2
          ⟨by omega, by omega, le_refl 1, daysInMonth_pos _ _⟩)
        ((ValidDate_mk _ _ _).2
          ⟨by omega, by omega, daysInMonth_pos _ _, le_refl _⟩)
        (by unfold dateLe; dsimp only; omega)
      unfold dtLe toUsec usecPerDay
      dsimp only
      omega
    · rw [if_neg (by omega)]
      show dtLe ⟨⟨t.date.y, 3 * ((t.date.m - 1) / 3 + 1) - 2, 1⟩, 0⟩
        ⟨⟨t.date.y, 12, 31⟩, 86399000000⟩
      rw [show 3 * ((t.date.m - 1) / 3 + 1) - 2 = 10 from by omega]
      have hmono := rataDie_mono ⟨t.date.y, 10, 1⟩ ⟨t.date.y, 12, 31⟩
        ((ValidDate_mk _ _ _).2 ⟨by omega, by omega, le_refl 1, daysInMonth_pos _ _⟩)
        ((ValidDate_mk _ _ _).2 ⟨by omega, by omega, by omega, by rw [daysInMonth_12]⟩)
        (by unfold dateLe; dsimp only; omega)
      unfold dtLe toUsec usecPerDay
      dsimp only
      omega
  | d7 =>
    dsimp only [get_date_range, okResolved, subDays]
    have hrd := rataDie_subDaysD t.date hvd 7
    unfold dtLe toUsec usecPerDay
    dsimp only
    rw [hrd]
    omega
  | d30 =>
    dsimp only [get_date_range, okResolved, subDays]
    have hrd := rataDie_subDaysD t.date hvd 30
    unfold dtLe toUsec usecPerDay
    dsimp only
    rw [hrd]
    omega
  | d90 =>
    dsimp only [get_date_range, okResolved, subDays]
    have hrd := rataDie_subDaysD t.date hvd 90
    unfold dtLe toUsec usecPerDay
    dsimp only
    rw [hrd]
    omega
  | d1095 =>
    dsimp only [get_date_range, okResolved, subDays]
    have hrd := rataDie_subDaysD t.date hvd 1095
    unfold dtLe toUsec usecPerDay
    dsimp only
    rw [hrd]
    omega
  | custom =>
    dsimp only [get_date_range, exceptIsOk] at hok
    exact (Bool.false_ne_true hok).elim
  | range d1 d2 =>
    obtain ⟨hv1, hv2, hle⟩ := hp d1 d2 rfl
    dsimp only [get_date_range, okResolved]
    have hmono := rataDie_mono d1 d2 hv1 hv2 hle
    unfold dtLe toUsec usecPerDay
    dsimp only
    omega

/-- Witness for C2 (amended) on the Week selector at 2024-05-15 01:00:00. -/
theorem resolver_start_le_end_witness :
    dtLe (okResolved (get_date_range PeriodArg.week
        ⟨⟨2024, 5, 15⟩, 3600000000⟩)).start_dt
      (okResolved (get_date_range PeriodArg.week
        ⟨⟨2024, 5, 15⟩, 3600000000⟩)).end_dt :=
  resolver_start_le_end PeriodArg.week ⟨⟨2024, 5, 15⟩, 3600000000⟩ (by decide)
    (fun d1 d2 h => PeriodArg.noConfusion h) (by decide)

/-- Counterexample to C2 as stated: `get_date_range` applied to the custom
tuple (2024-05-10, 2024-05-01) -- start after end -- returns a value whose
start instant is strictly after its end instant. -/
theorem resolver_start_le_end_counterexample :
    exceptIsOk (get_date_range (PeriodArg.range ⟨2024, 5, 10⟩ ⟨2024, 5, 1⟩)
      ⟨⟨2024, 5, 15⟩, 0⟩) = true ∧
    ¬ dtLe (okResolved (get_date_range (PeriodArg.range ⟨2024, 5, 10⟩ ⟨2024, 5, 1⟩)
        ⟨⟨2024, 5, 15⟩, 0⟩)).start_dt
      (okResolved (get_date_range (PeriodArg.range ⟨2024, 5, 10⟩ ⟨2024, 5, 1⟩)
        ⟨⟨2024, 5, 15⟩, 0⟩)).end_dt := by
  refine ⟨by decide, by decide⟩

/-- C1 (amended): resolving a custom tuple whose start date is after its end
date does not raise any error: `get_date_range` returns the period running
from the start date at 00:00:00 to the end date at 23:59:59.999999 (so the
start instant is after the end instant); the range validation lives in the
fetch handlers instead, which never pass such a tuple to the resolver but
substitute a fallback range, so session state can still change. -/
theorem custom_invalid_range_still_resolves (d1 d2 : Date) (t : PyDateTime)
    (h : dateLt d2 d1) :
    get_date_range (PeriodArg.range d1 d2) t =
      Except.ok ⟨isoformat ⟨d1, 0⟩, isoformat ⟨d2, 86399999999⟩,
        ⟨d1, 0⟩, ⟨d2, 86399999999⟩⟩ := rfl

/-- Witness for C1 (amended) at the tuple (2024-05-10, 2024-05-01). -/
theorem custom_invalid_range_still_resolves_witness :
    dateLt ⟨2024, 5, 1⟩ ⟨2024, 5, 10⟩ ∧
    get_date_range (PeriodArg.range ⟨2024, 5, 10⟩ ⟨2024, 5, 1⟩)
        ⟨⟨2024, 5, 15⟩, 0⟩ =
      Except.ok ⟨isoformat ⟨⟨2024, 5, 10⟩, 0⟩, isoformat ⟨⟨2024, 5, 1⟩, 86399999999⟩,
        ⟨⟨2024, 5, 10⟩, 0⟩, ⟨⟨2024, 5, 1⟩, 86399999999⟩⟩ :=
  ⟨by decide, custom_invalid_range_still_resolves ⟨2024, 5, 10⟩ ⟨2024, 5, 1⟩
    ⟨⟨2024, 5, 15⟩, 0⟩ (by decide)⟩

/-- Counterexample to C1 as stated: resolving the custom tuple
(2024-05-10, 2024-05-01) with start after end returns a `ResolvedPeriod`
value -- it does not fail with any error. -/
theorem custom_invalid_range_counterexample :
    exceptIsOk (get_date_range (PeriodArg.range ⟨2024, 5, 10⟩ ⟨2024, 5, 1⟩)
      ⟨⟨2024, 5, 16⟩, 0⟩) = true := by decide

/-- C8 (amended): resolving `Custom(d, d)` returns the interval spanning
exactly the one calendar day `d` in the reporting timezone: start at
`d` 00:00:00 and end at `d` 23:59:59.999999 inclusive (Python
`datetime.max.time()`, i.e. 86399999999 microseconds into the day). -/
theorem custom_same_day_full_day (d : Date) (t : PyDateTime) :
    get_date_range (PeriodArg.range d d) t =
      Except.ok ⟨isoformat ⟨d, 0⟩, isoformat ⟨d, 86399999999⟩,
        ⟨d, 0⟩, ⟨d, 86399999999⟩⟩ := rfl

/-- Counterexample to C8 as stated: for d = 2024-05-01 the resolver returns
a value whose end instant has time-of-day 23:59:59.999999, not the
23:59:59.999 (86399999000 microseconds) the claim states. -/
theorem custom_same_day_counterexample :
    exceptIsOk (get_date_range (PeriodArg.range ⟨2024, 5, 1⟩ ⟨2024, 5, 1⟩)
      ⟨⟨2024, 5, 15⟩, 0⟩) = true ∧
    (okResolved (get_date_range (PeriodArg.range ⟨2024, 5, 1⟩ ⟨2024, 5, 1⟩)
      ⟨⟨2024, 5, 15⟩, 0⟩)).end_dt.usec = 86399999999 ∧
    (okResolved (get_date_range (PeriodArg.range ⟨2024, 5, 1⟩ ⟨2024, 5, 1⟩)
      ⟨⟨2024, 5, 15⟩, 0⟩)).end_dt.usec ≠ 86399999000 := by
  refine ⟨by decide, by decide, by decide⟩

/-- If the tag is not the `"custom"` tag, `get_date_range` on it succeeds. -/
theorem tagToArg_resolves (sel : Tag) (t : PyDateTime) (h : sel ≠ Tag.custom) :
    ∃ r, get_date_range (tagToArg sel) t = Except.ok r := by
  cases sel
  case custom => exact absurd rfl h
  all_goals exact ⟨_, rfl⟩

/-- C5: the refetch gate of the dashboard: a fetch for `selected` can be
triggered from state `s` exactly when the session is unauthenticated, or the
selector differs from the stored period, or the selector is the `"custom"`
tag; in particular it is `false` when the selector equals the stored period
and is not `"custom"`. -/
theorem shouldRefetch_iff (s : SessionState) (sel : Tag) :
    shouldRefetch s sel = true ↔
      (s.authenticated = false ∨ sel ≠ s.selected_period ∨ sel = Tag.custom) := by
  unfold shouldRefetch
  cases hA : s.authenticated <;>
    simp [Bool.or_eq_true, bne_iff_ne, beq_iff_eq]

/-- C6: when the upstream source fails (the `except` branch returns an empty
frame and no query text) or returns zero rows, both fetch handlers leave the
session state exactly as it was: neither marks the session authenticated nor
touches records, period, query text or row count. -/
theorem failed_or_empty_fetch_preserves_state (s : SessionState) (sel : Tag)
    (ci : CustomInput) (t : PyDateTime) (src : SourceResult)
    (s1 s2 : SessionState)
    (hsrc : src = SourceResult.err ∨ src = SourceResult.rows []) :
    (authenticateAndFetch s sel ci t src = Except.ok s1 → s1 = s) ∧
    (updateQueryStep s sel ci t src = Except.ok s2 → s2 = s) := by
  constructor
  · intro h
    unfold authenticateAndFetch at h
    cases hres : resolveSelection sel ci (tagToArg Tag.d90) t with
    | error e =>
      rw [hres] at h
      exact Except.noConfusion h
    | ok r =>
      rw [hres] at h
      rcases hsrc with h' | h' <;> subst h' <;>
        simp only [connect_to_salesforce_and_run_query, List.isEmpty_nil, if_true,
          List.isEmpty, Except.ok.injEq] at h <;>
        exact h.symm
  · intro h
    unfold updateQueryStep at h
    cases hres : resolveSelection sel ci (tagToArg s.selected_period) t with
    | error e =>
      rw [hres] at h
      exact Except.noConfusion h
    | ok r =>
      rw [hres] at h
      rcases hsrc with h' | h' <;> subst h' <;>
        simp only [connect_to_salesforce_and_run_query, List.isEmpty_nil, if_true,
          List.isEmpty, Except.ok.injEq] at h <;>
        exact h.symm

/-- Witness for C6: from a populated authenticated state, a fetch returning
zero rows leaves the state unchanged in both handlers. -/
theorem failed_or_empty_fetch_preserves_state_witness :
    (⟨true, [⟨"a", "Positive", "2024-05-01"⟩], some "q", 1, Tag.week, none, none⟩ :
      SessionState) =
      ⟨true, [⟨"a", "Positive", "2024-05-01"⟩], some "q", 1, Tag.week, none, none⟩ ∧
    (⟨true, [⟨"a", "Positive", "2024-05-01"⟩], some "q", 1, Tag.week, none, none⟩ :
      SessionState) =
      ⟨true, [⟨"a", "Positive", "2024-05-01"⟩], some "q", 1, Tag.week, none, none⟩ := by
  have h := failed_or_empty_fetch_preserves_state
    ⟨true, [⟨"a", "Positive", "2024-05-01"⟩], some "q", 1, Tag.week, none, none⟩
    Tag.month ⟨⟨2024, 5, 1⟩, ⟨2024, 5, 2⟩⟩ ⟨⟨2024, 5, 15⟩, 0⟩
    (SourceResult.rows [])
    ⟨true, [⟨"a", "Positive", "2024-05-01"⟩], some "q", 1, Tag.week, none, none⟩
    ⟨true, [⟨"a", "Positive", "2024-05-01"⟩], some "q", 1, Tag.week, none, none⟩
    (Or.inr rfl)
  exact ⟨h.1 rfl, h.2 rfl⟩

/-- C7: a single fetch action updates the whole record/period group together
or not at all: each handler either returns the prior state unchanged, or a
state in which the records, the query text, the row count, the stored
period tag, and both resolved period bounds all come from this fetch.  No
state with a new period tag but the previous records is reachable from one
action. -/
theorem fetch_updates_all_or_nothing (s : SessionState) (sel : Tag)
    (ci : CustomInput) (t : PyDateTime) (src : SourceResult) (s' : SessionState) :
    (authenticateAndFetch s sel ci t src = Except.ok s' →
      s' = s ∨ ∃ rows r, src = SourceResult.rows rows ∧ rows ≠ [] ∧
        resolveSelection sel ci (tagToArg Tag.d90) t = Except.ok r ∧
        s' = ⟨true, rows, some (soql_query r.start_iso r.end_iso), rows.length,
          sel, some r.start_dt, some r.end_dt⟩) ∧
    (updateQueryStep s sel ci t src = Except.ok s' →
      s' = s ∨ ∃ rows r, src = SourceResult.rows rows ∧ rows ≠ [] ∧
        resolveSelection sel ci (tagToArg s.selected_period) t = Except.ok r ∧
        s' = ⟨s.authenticated, rows, some (soql_query r.start_iso r.end_iso),
          rows.length, sel, some r.start_dt, some r.end_dt⟩) := by
  constructor
  · intro h
    unfold authenticateAndFetch at h
    cases hres : resolveSelection sel ci (tagToArg Tag.d90) t with
    | error e =>
      rw [hres] at h
      exact Except.noConfusion h
    | ok r =>
      rw [hres] at h
      cases src with
      | err =>
        simp only [connect_to_salesforce_and_run_query, List.isEmpty_nil, if_true,
          List.isEmpty, Except.ok.injEq] at h
        exact Or.inl h.symm
      | rows rs =>
        cases hrs : rs.isEmpty with
        | true =>
          have hnil : rs = [] := List.isEmpty_iff.1 hrs
          subst hnil
          simp only [connect_to_salesforce_and_run_query, List.isEmpty_nil, if_true,
            List.isEmpty, Except.ok.injEq] at h
          exact Or.inl h.symm
        | false =>
          have hne : rs ≠ [] := by
            intro hnil
            subst hnil
            simp at hrs
          simp only [connect_to_salesforce_and_run_query, hrs,
            Bool.false_eq_true, if_false, ite_false, eq_self_iff_true,
            Except.ok.injEq] at h
          refine Or.inr ⟨rs, r, rfl, hne, rfl, ?_⟩
          subst h
          rfl
  · intro h
    unfold updateQueryStep at h
    cases hres : resolveSelection sel ci (tagToArg s.selected_period) t with
    | error e =>
      rw [hres] at h
      exact Except.noConfusion h
    | ok r =>
      rw [hres] at h
      cases src with
      | err =>
        simp only [connect_to_salesforce_and_run_query, List.isEmpty_nil, if_true,
          List.isEmpty, Except.ok.injEq] at h
        exact Or.inl h.symm
      | rows rs =>
        cases hrs : rs.isEmpty with
        | true =>
          have hnil : rs = [] := List.isEmpty_iff.1 hrs
          subst hnil
          simp only [connect_to_salesforce_and_run_query, List.isEmpty_nil, if_true,
            List.isEmpty, Except.ok.injEq] at h
          exact Or.inl h.symm
        | false =>
          have hne : rs ≠ [] := by
            intro hnil
            subst hnil
            simp at hrs
          simp only [connect_to_salesforce_and_run_query, hrs,
            Bool.false_eq_true, if_false, ite_false, eq_self_iff_true,
            Except.ok.injEq] at h
          refine Or.inr ⟨rs, r, rfl, hne, rfl, ?_⟩
          subst h
          rfl

/-- Witness for C7: an empty fetch from the initial state resolves to the
unchanged-state disjunct in both handlers. -/
theorem fetch_updates_all_or_nothing_witness :
    (initialState = initialState ∨ ∃ rows r,
      (SourceResult.rows ([] : List Row)) = SourceResult.rows rows ∧ rows ≠ [] ∧
      resolveSelection Tag.week ⟨⟨2024, 5, 1⟩, ⟨2024, 5, 2⟩⟩ (tagToArg Tag.d90)
        ⟨⟨2024, 5, 15⟩, 0⟩ = Except.ok r ∧
      initialState = ⟨true, rows, some (soql_query r.start_iso r.end_iso),
        rows.length, Tag.week, some r.start_dt, some r.end_dt⟩) ∧
    (initialState = initialState ∨ ∃ rows r,
      (SourceResult.rows ([] : List Row)) = SourceResult.rows rows ∧ rows ≠ [] ∧
      resolveSelection Tag.week ⟨⟨2024, 5, 1⟩, ⟨2024, 5, 2⟩⟩
        (tagToArg initialState.selected_period) ⟨⟨2024, 5, 15⟩, 0⟩ = Except.ok r ∧
      initialState = ⟨initialState.authenticated, rows,
        some (soql_query r.start_iso r.end_iso), rows.length, Tag.week,
        some r.start_dt, some r.end_dt⟩) := by
  have h := fetch_updates_all_or_nothing initialState Tag.week
    ⟨⟨2024, 5, 1⟩, ⟨2024, 5, 2⟩⟩ ⟨⟨2024, 5, 15⟩, 0⟩
    (SourceResult.rows []) initialState
  exact ⟨h.1 rfl, h.2 rfl⟩

/-- C10 (amended): when the user has selected the Custom range with start
date after end date and triggers a fetch whose substitute query returns
non-empty rows: (a) an unauthenticated initial fetch still issues the query
with the Last-90-days substitute range and replaces the whole state, marking
the session authenticated and recording the active period as the `"custom"`
tag; (b) a re-fetch whose previously active period is not the `"custom"` tag
issues the query with the previous period's range and replaces the state the
same way; (c) but a re-fetch whose previously active period is itself the
`"custom"` tag passes the stored tag string to `get_date_range`, which
raises `ValueError("Invalid period selected")` -- no query is issued and the
state is untouched. -/
theorem custom_invalid_fallback_behavior (s : SessionState) (ci : CustomInput)
    (t : PyDateTime) (rows : List Row)
    (hbad : ¬ dateLe ci.start_date ci.end_date) (hne : rows ≠ []) :
    (∃ r, get_date_range PeriodArg.d90 t = Except.ok r ∧
      authenticateAndFetch s Tag.custom ci t (SourceResult.rows rows) =
        Except.ok ⟨true, rows, some (soql_query r.start_iso r.end_iso),
          rows.length, Tag.custom, some r.start_dt, some r.end_dt⟩) ∧
    (s.selected_period ≠ Tag.custom →
      ∃ r, get_date_range (tagToArg s.selected_period) t = Except.ok r ∧
        updateQueryStep s Tag.custom ci t (SourceResult.rows rows) =
          Except.ok ⟨s.authenticated, rows, some (soql_query r.start_iso r.end_iso),
            rows.length, Tag.custom, some r.start_dt, some r.end_dt⟩) ∧
    (s.selected_period = Tag.custom →
      updateQueryStep s Tag.custom ci t (SourceResult.rows rows) =
        Except.error "Invalid period selected") := by
  have hres : ∀ fb, resolveSelection Tag.custom ci fb t = get_date_range fb t := by
    intro fb
    unfold resolveSelection
    rw [if_pos (show (Tag.custom == Tag.custom) = true from rfl), if_neg hbad]
  have hrs : rows.isEmpty = false := by
    cases rows with
    | nil => exact absurd rfl hne
    | cons a l => rfl
  refine ⟨?_, ?_, ?_⟩
  · refine ⟨_, rfl, ?_⟩
    unfold authenticateAndFetch
    rw [hres (tagToArg Tag.d90)]
    show (let df := (connect_to_salesforce_and_run_query
        (okResolved (get_date_range (tagToArg Tag.d90) t)).start_iso
        (okResolved (get_date_range (tagToArg Tag.d90) t)).end_iso
        (SourceResult.rows rows)).1
      let query := (connect_to_salesforce_and_run_query
        (okResolved (get_date_range (tagToArg Tag.d90) t)).start_iso
        (okResolved (get_date_range (tagToArg Tag.d90) t)).end_iso
        (SourceResult.rows rows)).2
      if df.isEmpty then Except.ok s
      else Except.ok {
        authenticated := true, df := df, query := query,
        total_count := df.length, selected_period := Tag.custom,
        period_start := some (okResolved (get_date_range (tagToArg Tag.d90) t)).start_dt,
        period_end := some (okResolved (get_date_range (tagToArg Tag.d90) t)).end_dt }) =
      Except.ok _
    simp only [connect_to_salesforce_and_run_query, hrs, Bool.false_eq_true,
      if_false, ite_false]
    rfl
  · intro hsel
    obtain ⟨r, hr⟩ := tagToArg_resolves s.selected_period t hsel
    refine ⟨r, hr, ?_⟩
    unfold updateQueryStep
    rw [hres (tagToArg s.selected_period), hr]
    simp only [connect_to_salesforce_and_run_query, hrs, Bool.false_eq_true,
      if_false, ite_false]
  · intro hsel
    unfold updateQueryStep
    rw [hres (tagToArg s.selected_period), hsel]
    rfl

/-- Witness for C10 (amended) from an authenticated session whose previous
period is `Week`, with the invalid custom pair (2024-05-10, 2024-05-01) and
one result row. -/
theorem custom_invalid_fallback_behavior_witness :
    (∃ r, get_date_range PeriodArg.d90 ⟨⟨2024, 5, 15⟩, 0⟩ = Except.ok r ∧
      authenticateAndFetch ⟨true, [], none, 0, Tag.week, none, none⟩ Tag.custom
          ⟨⟨2024, 5, 10⟩, ⟨2024, 5, 1⟩⟩ ⟨⟨2024, 5, 15⟩, 0⟩
          (SourceResult.rows [⟨"b", "Negative", "2024-05-02"⟩]) =
        Except.ok ⟨true, [⟨"b", "Negative", "2024-05-02"⟩],
          some (soql_query r.start_iso r.end_iso),
          ([⟨"b", "Negative", "2024-05-02"⟩] : List Row).length, Tag.custom,
          some r.start_dt, some r.end_dt⟩) ∧
    ((⟨true, [], none, 0, Tag.week, none, none⟩ : SessionState).selected_period ≠
        Tag.custom →
      ∃ r, get_date_range
          (tagToArg (⟨true, [], none, 0, Tag.week, none, none⟩ :
            SessionState).selected_period) ⟨⟨2024, 5, 15⟩, 0⟩ = Except.ok r ∧
        updateQueryStep ⟨true, [], none, 0, Tag.week, none, none⟩ Tag.custom
            ⟨⟨2024, 5, 10⟩, ⟨2024, 5, 1⟩⟩ ⟨⟨2024, 5, 15⟩, 0⟩
            (SourceResult.rows [⟨"b", "Negative", "2024-05-02"⟩]) =
          Except.ok ⟨(⟨true, [], none, 0, Tag.week, none, none⟩ :
              SessionState).authenticated,
            [⟨"b", "Negative", "2024-05-02"⟩],
            some (soql_query r.start_iso r.end_iso),
            ([⟨"b", "Negative", "2024-05-02"⟩] : List Row).length, Tag.custom,
            some r.start_dt, some r.end_dt⟩) ∧
    ((⟨true, [], none, 0, Tag.week, none, none⟩ : SessionState).selected_period =
        Tag.custom →
      updateQueryStep ⟨true, [], none, 0, Tag.week, none, none⟩ Tag.custom
          ⟨⟨2024, 5, 10⟩, ⟨2024, 5, 1⟩⟩ ⟨⟨2024, 5, 15⟩, 0⟩
          (SourceResult.rows [⟨"b", "Negative", "2024-05-02"⟩]) =
        Except.error "Invalid period selected") :=
  custom_invalid_fallback_behavior ⟨true, [], none, 0, Tag.week, none, none⟩
    ⟨⟨2024, 5, 10⟩, ⟨2024, 5, 1⟩⟩ ⟨⟨2024, 5, 15⟩, 0⟩
    [⟨"b", "Negative", "2024-05-02"⟩] (by decide) (by decide)

/-- Counterexample to C10 as stated: when the previously active period is
itself the `"custom"` tag, a re-fetch with an invalid custom range issues no
substitute query at all -- the fallback `get_date_range("custom")` raises
`ValueError("Invalid period selected")` (an uncaught exception), so no state
is replaced. -/
theorem custom_invalid_fallback_counterexample :
    updateQueryStep ⟨true, [⟨"a", "Positive", "2024-05-01"⟩], some "q", 1,
        Tag.custom, none, none⟩
      Tag.custom ⟨⟨2024, 5, 10⟩, ⟨2024, 5, 1⟩⟩ ⟨⟨2024, 5, 15⟩, 0⟩
      (SourceResult.rows [⟨"b", "Negative", "2024-05-02"⟩]) =
    Except.error "Invalid period selected" := rfl

theorem insertDesc_perm (p : String × Nat) (l : List (String × Nat)) :
    List.Perm (insertDesc p l) (p :: l) := by
  induction l with
  | nil => exact List.Perm.refl _
  | cons q qs ih =>
    simp only [insertDesc]
    split
    · exact List.Perm.refl _
    · exact (List.Perm.cons q ih).trans (List.Perm.swap p q qs)

theorem sortCountDesc_perm (l : List (String × Nat)) :
    List.Perm (sortCountDesc l) l := by
  induction l with
  | nil => exact List.Perm.refl _
  | cons p ps ih => exact (insertDesc_perm p _).trans (List.Perm.cons p ih)

theorem mem_firstOccurrences (x : String) (l : List String) :
    x ∈ firstOccurrences l ↔ x ∈ l := by
  induction l using firstOccurrences.induct with
  | case1 => simp [firstOccurrences]
  | case2 c cs ih =>
    simp only [firstOccurrences, List.mem_cons]
    constructor
    · rintro (h | h)
      · exact Or.inl h
      · exact Or.inr (List.mem_filter.1 (ih.1 h)).1
    · rintro (h | h)
      · exact Or.inl h
      · by_cases hc : x = c
        · exact Or.inl hc
        · exact Or.inr (ih.2 (List.mem_filter.2 ⟨h, by simp [hc]⟩))

theorem map_count_mkAgg (l : List (String × Nat)) (total : ℚ) :
    ((l.map (fun p =>
        (⟨p.1, p.2, round2 ((p.2 : ℚ) / total * 100)⟩ : AggRow))).map
      (fun e => e.count)) = l.map (fun p => p.2) := by
  rw [List.map_map]
  rfl

theorem sentiment_total_eq (rows : List Row) :
    ((sentiment_counts rows).map (fun e => e.count)).sum =
      (((firstOccurrences (rows.map (fun r => r.call_sentiment))).map
        (fun c => (c, rows.countP (fun r => r.call_sentiment == c)))).map
        (fun p => p.2)).sum := by
  simp only [sentiment_counts]
  rw [map_count_mkAgg]
  exact ((sortCountDesc_perm _).map _).sum_eq

theorem sentiment_counts_example :
    sentiment_counts [⟨"a", "Positive", "d1"⟩, ⟨"b", "Positive", "d2"⟩,
        ⟨"c", "Negative", "d3"⟩] =
      [⟨"Positive", 2, 6667 / 100⟩, ⟨"Negative", 1, 3333 / 100⟩] := by
  have h2 : firstOccurrences ["Positive", "Positive", "Negative"] =
      ["Positive", "Negative"] := by
    simp [firstOccurrences]
  simp only [sentiment_counts, List.map_cons, List.map_nil]
  rw [h2]
  simp only [List.map_cons, List.map_nil, List.countP_cons, List.countP_nil,
    List.sum_cons, List.sum_nil, sortCountDesc, insertDesc, beq_iff_eq,
    String.reduceEq, reduceIte]
  norm_num [round2, roundHalfEven, AggRow.mk.injEq]
  rw [show Int.fract ((20000 : ℚ) / 3) = 2 / 3 by rw [Int.fract]; norm_num,
    show Int.fract ((10000 : ℚ) / 3) = 1 / 3 by rw [Int.fract]; norm_num]
  norm_num

theorem pos_mem_sentiment_counts_example :
    (⟨"Positive", 2, 6667 / 100⟩ : AggRow) ∈
      sentiment_counts [⟨"a", "Positive", "d1"⟩, ⟨"b", "Positive", "d2"⟩,
        ⟨"c", "Negative", "d3"⟩] :=
  sentiment_counts_example ▸ List.mem_cons_self _ _

/-- C9: the sentiment aggregation groups the rows by their sentiment value:
every row of the aggregated table carries the number of input rows with that
sentiment and that count as a percentage of the total (the sum of the table
counts) rounded to two decimals; every input row's sentiment appears in the
table; and on the rows with sentiments [Positive, Positive, Negative] the
table is exactly Positive: count 2, 66.67 percent and Negative: count 1,
33.33 percent, the percentages summing to 100.00 exactly (within the ±0.01
rounding tolerance). -/
theorem sentiment_aggregation_correct (rows : List Row) (hne : rows ≠ []) :
    (∀ e ∈ sentiment_counts rows,
      e.count = rows.countP (fun r => r.call_sentiment == e.sentiment) ∧
      e.percentage = round2 ((e.count : ℚ) /
        ((((sentiment_counts rows).map (fun x => x.count)).sum : Nat) : ℚ) * 100)) ∧
    (∀ r ∈ rows, ∃ e ∈ sentiment_counts rows, e.sentiment = r.call_sentiment) ∧
    sentiment_counts [⟨"a", "Positive", "d1"⟩, ⟨"b", "Positive", "d2"⟩,
        ⟨"c", "Negative", "d3"⟩] =
      [⟨"Positive", 2, 6667 / 100⟩, ⟨"Negative", 1, 3333 / 100⟩] ∧
    ((sentiment_counts [⟨"a", "Positive", "d1"⟩, ⟨"b", "Positive", "d2"⟩,
        ⟨"c", "Negative", "d3"⟩]).map (fun e => e.percentage)).sum = 100 := by
  refine ⟨?_, ?_, sentiment_counts_example,
    by rw [sentiment_counts_example]; norm_num⟩
  · intro e he
    rw [sentiment_total_eq]
    simp only [sentiment_counts, List.mem_map] at he
    obtain ⟨p, hp, hpe⟩ := he
    rw [(sortCountDesc_perm _).mem_iff] at hp
    simp only [List.mem_map] at hp
    obtain ⟨c, hc, hcp⟩ := hp
    subst hcp
    subst hpe
    exact ⟨rfl, rfl⟩
  · intro r hr
    have hmem : r.call_sentiment ∈
        firstOccurrences (rows.map (fun r2 => r2.call_sentiment)) :=
      (mem_firstOccurrences _ _).2 (List.mem_map_of_mem _ hr)
    have h2 := List.mem_map_of_mem
      (fun c => (c, rows.countP (fun r2 => r2.call_sentiment == c))) hmem
    simp only [sentiment_counts, List.mem_map]
    exact ⟨_, ⟨_, (sortCountDesc_perm _).mem_iff.2 h2, rfl⟩, rfl⟩

/-- Witness for C9 on the three-row [Positive, Positive, Negative] input:
the Positive entry of the aggregated table carries count 2 and the rounded
percentage of the total. -/
theorem sentiment_aggregation_correct_witness :
    (⟨"Positive", 2, 6667 / 100⟩ : AggRow).count =
      ([⟨"a", "Positive", "d1"⟩, ⟨"b", "Positive", "d2"⟩,
        ⟨"c", "Negative", "d3"⟩] : List Row).countP
        (fun r => r.call_sentiment == (⟨"Positive", 2, 6667 / 100⟩ : AggRow).sentiment) ∧
    (⟨"Positive", 2, 6667 / 100⟩ : AggRow).percentage =
      round2 (((⟨"Positive", 2, 6667 / 100⟩ : AggRow).count : ℚ) /
        ((((sentiment_counts [⟨"a", "Positive", "d1"⟩, ⟨"b", "Positive", "d2"⟩,
          ⟨"c", "Negative", "d3"⟩]).map (fun x => x.count)).sum : Nat) : ℚ) * 100) :=
  (sentiment_aggregation_correct
    [⟨"a", "Positive", "d1"⟩, ⟨"b", "Positive", "d2"⟩, ⟨"c", "Negative", "d3"⟩]
    (by decide)).1 ⟨"Positive", 2, 6667 / 100⟩ pos_mem_sentiment_counts_example
